import Mathlib

/-!
Verification development for the emulated Roku device (TypeScript source in
src/src/index.ts).  The definitions below are a shallow embedding of the
discovery protocol, the access guard and the HTTP command server of that
file.  JavaScript strings are modelled as Lean strings, the event-driven
socket code as explicit state passing on a record type, and the
Math.random() source as an explicit rational parameter r with 0 <= r < 1.
NaN results of the JavaScript number arithmetic are modelled as none in
an Option-valued delay.
-/

namespace EmulatedRoku

/-! String helpers mirroring the JavaScript string operations used by the
source: startsWith, includes, indexOf, single-character indexing and
String.prototype.trim. -/

/-- Boolean test that the first list is an initial segment of the second;
this is the primitive behind the JavaScript startsWith and indexOf. -/
def listHasPfx : List Char → List Char → Bool
  | [], _ => true
  | _ :: _, [] => false
  | p :: ps, c :: cs => p == c && listHasPfx ps cs

/-- Index of the first occurrence of the pattern in the list, mirroring
JavaScript String.prototype.indexOf (none plays the role of -1). -/
def listFindSub (pat : List Char) : List Char → Option Nat
  | [] => if listHasPfx pat [] then some 0 else none
  | c :: cs =>
    if listHasPfx pat (c :: cs) then some 0
    else (listFindSub pat cs).map (fun n => n + 1)

/-- JavaScript data.indexOf(pat), with none for the -1 result. -/
def strIndexOf (s pat : String) : Option Nat :=
  listFindSub pat.data s.data

/-- JavaScript data.includes(pat). -/
def strContains (s pat : String) : Bool :=
  (strIndexOf s pat).isSome

/-- JavaScript data.startsWith(pat). -/
def strStartsWith (s pat : String) : Bool :=
  listHasPfx pat.data s.data

/-- JavaScript single-character access data[i]; none models undefined. -/
def strCharAt (s : String) (i : Nat) : Option Char :=
  s.data.get? i

/-- Splitting a character list at every occurrence of a separator
character, with the splitting semantics of the string split of Python and
JavaScript: n separators yield n + 1 groups, empty groups included. -/
def listSplitOn (sep : Char) : List Char → List (List Char)
  | [] => [[]]
  | c :: cs =>
    let r := listSplitOn sep cs
    if c == sep then [] :: r
    else
      match r with
      | [] => [[c]]
      | g :: gs => (c :: g) :: gs

/-- String split at a single-character separator. -/
def strSplitOn (sep : Char) (s : String) : List String :=
  (listSplitOn sep s.data).map (fun l => ⟨l⟩)

/-- The JavaScript white-space class used by String.prototype.trim:
ASCII white space, NBSP, the Unicode space separators, line and paragraph
separators and the BOM. -/
def jsIsSpace (c : Char) : Bool :=
  let n := c.toNat
  (9 ≤ n && n ≤ 13) || n == 32 || n == 160 || n == 0x1680 ||
  (0x2000 ≤ n && n ≤ 0x200A) || n == 0x2028 || n == 0x2029 ||
  n == 0x202F || n == 0x205F || n == 0x3000 || n == 0xFEFF

/-- JavaScript String.prototype.trim. -/
def jsTrim (s : String) : String :=
  ⟨((s.data.dropWhile jsIsSpace).reverse.dropWhile jsIsSpace).reverse⟩

/-- JavaScript parseInt(c, 10) restricted to the single-character strings
produced by data[i]: a decimal digit parses to its value, anything else
(including the undefined of an out-of-range index) gives NaN, modelled as
none. -/
def jsParseIntChar (c : Char) : Option Nat :=
  if c.isDigit then some (c.toNat - 48) else none

/-! Multicast and SSDP constants, from src/src/index.ts lines 98-103. -/

def MULTICAST_TTL : Nat := 300
def MULTICAST_TTL_MS : Nat := MULTICAST_TTL * 1000
def MULTICAST_MAX_DELAY : Nat := 5
def MULTICAST_GROUP : String := "239.255.255.250"
def MULTICAST_PORT : Nat := 1900

/-- The ssdpResponse template literal built in the
EmulatedRokuDiscoveryProtocol constructor (lines 119-126), including its
indentation.  All three holes are interpolated. -/
def ssdpResponseStr (advertiseIp : String) (advertisePort : Nat)
    (rokuUsn : String) : String :=
  "HTTP/1.1 200 OK\n      Cache-Control: max-age = " ++ toString MULTICAST_TTL ++
  "\n      ST: roku:ecp\n      SERVER: Roku/12.0.0 UPnP/1.0 Roku/12.0.0\n      Ext: \n      Location: http://" ++
  advertiseIp ++ ":" ++ toString advertisePort ++
  "/\n      USN: uuid:roku:ecp:" ++ rokuUsn ++ "\n    "

/-- The notifyBroadcast template literal built in the constructor
(lines 127-134).  Note that the USN line of the source ends in the literal
text uuid:roku:ecp:\x7busn\x7d - the hole is written without a dollar sign
in the template literal, so the rokuUsn parameter is NOT interpolated
there (the other holes are). -/
def notifyBroadcastStr (advertiseIp : String) (advertisePort : Nat)
    (rokuUsn : String) : String :=
  "NOTIFY * HTTP/1.1\n      HOST: " ++ MULTICAST_GROUP ++ ":" ++
  toString MULTICAST_PORT ++
  "\n      Cache-Control: max-age = " ++ toString MULTICAST_TTL ++
  "\n      NT: upnp:rootdevice\n      NTS: ssdp:alive\n      Location: http://" ++
  advertiseIp ++ ":" ++ toString advertisePort ++
  "/\n      USN: uuid:roku:ecp:\x7busn\x7d\n    "

/-! The discovery protocol: datagram matching, delay computation and the
engine state machine. -/

/-- The matching condition of datagramReceived (lines 205-208): the request
is processed if and only if the trimmed payload starts with the M-SEARCH
request line and includes one of the two ST substrings. -/
def isMatch (data : String) : Bool :=
  strStartsWith data "M-SEARCH * HTTP/1.1" &&
  (strContains data "ST: ssdp:all" || strContains data "ST: roku:ecp")

/-- The delay computation of datagramReceived (lines 211-219).  The source
looks up the first occurrence of the token MX:, reads the single character
four positions past its start, applies parseInt and takes the remainder
modulo MULTICAST_MAX_DELAY + 1; the result scales a uniform random r from
the interval from 0 to 1 into milliseconds.  A non-digit character (or a
missing one) makes mxDelay NaN, which propagates to the delay; NaN is
modelled as none. -/
def computeDelay (data : String) (r : ℚ) : Option ℚ :=
  match strIndexOf data "MX:" with
  | some i =>
    match strCharAt data (i + 4) with
    | some c =>
      match jsParseIntChar c with
      | some n =>
        some (r * (((n % (MULTICAST_MAX_DELAY + 1)) + 1 : Nat) : ℚ) * 1000)
      | none => none
    | none => none
  | none => some (r * (((MULTICAST_MAX_DELAY + 1) : Nat) : ℚ) * 1000)

/-- The address and port of the sender of a datagram (dgram.RemoteInfo). -/
structure RemoteInfo where
  address : String
  port : Nat
deriving DecidableEq

/-- A reply scheduled by setTimeout in datagramReceived: the captured
requester address and port together with the computed delay (none when the
delay is NaN). -/
structure PendingReply where
  address : String
  port : Nat
  delay : Option ℚ
deriving DecidableEq

/-- A datagram handed to dgramSocket.send: payload, destination address and
destination port. -/
structure SentDatagram where
  payload : String
  address : String
  port : Nat
deriving DecidableEq

/-- State of one EmulatedRokuDiscoveryProtocol instance: the constructor
arguments, the two precomputed payloads, the notifyInterval timer handle,
the connected flag, whether the socket is open, the scheduled replies and
the trace of datagrams passed to the socket. -/
structure DiscoveryProtocol where
  hostIp : String
  rokuUsn : String
  advertiseIp : String
  advertisePort : Nat
  ssdpResponse : String
  notifyBroadcast : String
  notifyInterval : Option Unit
  connected : Bool
  socketOpen : Bool
  pending : List PendingReply
  sent : List SentDatagram
deriving DecidableEq

/-- The EmulatedRokuDiscoveryProtocol constructor (lines 112-142): stores
the configuration, renders the two payloads once, and starts with the
connected flag false and no timer (the listening event has not fired
yet). -/
def mkProtocol (hostIp rokuUsn advertiseIp : String) (advertisePort : Nat) :
    DiscoveryProtocol :=
  { hostIp := hostIp
    rokuUsn := rokuUsn
    advertiseIp := advertiseIp
    advertisePort := advertisePort
    ssdpResponse := ssdpResponseStr advertiseIp advertisePort rokuUsn
    notifyBroadcast := notifyBroadcastStr advertiseIp advertisePort rokuUsn
    notifyInterval := none
    connected := false
    socketOpen := true
    pending := []
    sent := [] }

/-- multicastNotify (lines 187-196): send the notify payload to the
multicast group. -/
def multicastNotify (s : DiscoveryProtocol) : DiscoveryProtocol :=
  { s with sent := s.sent ++ [⟨s.notifyBroadcast, MULTICAST_GROUP, MULTICAST_PORT⟩] }

/-- connectionMade (lines 150-170): clear a stale timer, set connected,
send the first notify immediately and arm the repeating timer. -/
def connectionMade (s : DiscoveryProtocol) : DiscoveryProtocol :=
  let s1 := { s with notifyInterval := none, connected := true }
  let s2 := multicastNotify s1
  { s2 with notifyInterval := some () }

/-- datagramReceived (lines 201-234): trim the payload, drop it silently
unless it matches, and otherwise schedule a reply to the requester after
the computed delay.  The r parameter is the Math.random() draw. -/
def datagramReceived (s : DiscoveryProtocol) (msg : String)
    (rinfo : RemoteInfo) (r : ℚ) : DiscoveryProtocol :=
  let data := jsTrim msg
  if isMatch data then
    { s with pending := s.pending ++ [⟨rinfo.address, rinfo.port, computeDelay data r⟩] }
  else s

/-- The setTimeout callback of datagramReceived firing for one scheduled
reply (lines 222-233): if the engine is no longer connected the callback
returns without sending; otherwise it sends the precomputed ssdpResponse
to the captured requester address and port. -/
def fireReply (s : DiscoveryProtocol) (p : PendingReply) : DiscoveryProtocol :=
  if s.connected then
    { s with sent := s.sent ++ [⟨s.ssdpResponse, p.address, p.port⟩] }
  else s

/-- close (lines 236-243), state effect only: clear the connected flag,
cancel the timer if armed, and mark the socket closed.  The raise of the
underlying socket close when the socket is already closed is modelled by
closeRun below; this total version is the state the engine reaches. -/
def close (s : DiscoveryProtocol) : DiscoveryProtocol :=
  { s with connected := false, notifyInterval := none, socketOpen := false }

/-- connectionLost (lines 175-182), the handler of the socket close event:
it just delegates to close. -/
def connectionLost (s : DiscoveryProtocol) : DiscoveryProtocol :=
  close s

/-- The close operation of the Node dgram socket collaborator: closing a
socket that is no longer running raises ERR_SOCKET_DGRAM_NOT_RUNNING.
The pair carries the resulting state and the optional raised error. -/
def socketClose (s : DiscoveryProtocol) : DiscoveryProtocol × Option String :=
  if s.socketOpen then ({ s with socketOpen := false }, none)
  else (s, some "ERR_SOCKET_DGRAM_NOT_RUNNING")

/-- close (lines 236-243) with the fallible socket collaborator: clear
the connected flag, cancel the timer if armed, then call the socket
close, which raises if the socket is already closed.  The flag and timer
mutations precede the call, so they persist even when it raises. -/
def closeRun (s : DiscoveryProtocol) : DiscoveryProtocol × Option String :=
  socketClose { s with connected := false, notifyInterval := none }

/-- The full shutdown path the constructor wires up (line 138): a
successful socket close emits the close event, which runs connectionLost,
which calls close again - now on the already-closed socket. -/
def stopSequence (s : DiscoveryProtocol) : DiscoveryProtocol × Option String :=
  match closeRun s with
  | (s1, none) => closeRun s1
  | (s1, some e) => (s1, some e)

/-! The access guard.  The middleware in the source (lines 410-425) calls
the external ip_address(...).is_private facility, which is not part of the
repository; it is modelled from the spec below. -/

/-- Value of one dotted-quad component if it is a decimal numeral of at
most three digits with value at most 255. -/
def parseOctet (s : String) : Option Nat :=
  if s.data ≠ [] && s.data.all Char.isDigit && s.data.length ≤ 3 then
    let n := s.data.foldl (fun acc c => acc * 10 + (c.toNat - 48)) 0
    if n ≤ 255 then some n else none
  else none

/-- Modelled from the spec: a syntactically valid IPv4 address is a
dotted quad of four decimal components, each at most 255. -/
def parseIPv4 (s : String) : Option (Nat × Nat × Nat × Nat) :=
  match (strSplitOn '.' s).map parseOctet with
  | [some a, some b, some c, some d] => some (a, b, c, d)
  | _ => none

/-- Modelled from the spec: an IPv6-mapped IPv4 address is normalized to
its IPv4 form before the private-range check. -/
def normalizeMapped (s : String) : String :=
  if strStartsWith s "::ffff:" then ⟨s.data.drop 7⟩ else s

/-- Modelled from the spec: the ip_address(remote).is_private test of the
middleware, an external library facility absent from the repository.  Per
the spec the remote must be a syntactically valid IPv4 address (with an
IPv6-mapped address normalized first) lying in an RFC1918 range or in the
loopback range. -/
def isPrivateRemote (remote : String) : Bool :=
  match parseIPv4 (normalizeMapped remote) with
  | some (a, b, _, _) =>
    a == 10 || (a == 172 && decide (16 ≤ b) && decide (b ≤ 31)) ||
    (a == 192 && b == 168) || a == 127
  | none => false

/-- Outcome of the access guard, recording which rule failed. -/
inductive GuardResult
  | allow
  | denyHost
  | denyRemote
deriving DecidableEq

/-- The check_remote_and_host_ip middleware policy (lines 410-423): first
the Host header must be present and be a member of allowed_hosts, then the
remote address must pass the private-network test; the first failure
wins. -/
def check_remote_and_host_ip (allowed_hosts : List String)
    (host : Option String) (remote : String) : GuardResult :=
  match host with
  | none => GuardResult.denyHost
  | some h =>
    if h ∈ allowed_hosts then
      if isPrivateRemote remote then GuardResult.allow
      else GuardResult.denyRemote
    else GuardResult.denyHost

/-! The HTTP command server: templates, configuration, routing. -/

/-- Modelled from the spec: the v5 function of the external uuid library,
a pure deterministic derivation from a namespace and a name (the library
itself is not part of the repository). -/
def uuid5 (namespaceId : String) (nameStr : String) : String :=
  "uuid5:" ++ namespaceId ++ ":" ++ nameStr

/-- The OID namespace constant uuid5.OID used at line 342. -/
def uuidOID : String := "6ba7b812-9dad-11d1-80b4-00c04fd430c8"

/-- The root device description template (lines 16-35). -/
def formatInfoTemplate (uuid usn : String) : String :=
  "<?xml version=\"1.0\" encoding=\"UTF-8\" ?>\n<root xmlns=\"urn:schemas-upnp-org:device-1-0\">\n  <specVersion>\n    <major>1</major>\n    <minor>0</minor>\n  </specVersion>\n  <device>\n  <deviceType>urn:roku-com:device:player:1-0</deviceType>\n  <friendlyName>" ++
  usn ++
  "</friendlyName>\n  <manufacturer>Roku</manufacturer>\n  <manufacturerURL>http://www.roku.com/</manufacturerURL>\n  <modelDescription>Emulated Roku</modelDescription>\n  <modelName>Roku 4</modelName>\n  <modelNumber>4400x</modelNumber>\n  <modelURL>http://www.roku.com/</modelURL>\n  <serialNumber>" ++
  usn ++ "</serialNumber>\n  <UDN>uuid:" ++ uuid ++ "</UDN>\n  </device>\n</root>\n"

/-- The device-info template (lines 37-77). -/
def formatDeviceInfoTemplate (uuid usn : String) : String :=
  "<device-info>\n  <udn>" ++ uuid ++ "</udn>\n  <serial-number>" ++ usn ++
  "</serial-number>\n  <device-id>" ++ usn ++
  "</device-id>\n  <vendor-name>Roku</vendor-name>\n  <model-number>4400X</model-number>\n  <model-name>Roku 4</model-name>\n  <model-region>US</model-region>\n  <supports-ethernet>true</supports-ethernet>\n  <wifi-mac>00:00:00:00:00:00</wifi-mac>\n  <ethernet-mac>00:00:00:00:00:00</ethernet-mac>\n  <network-type>ethernet</network-type>\n  <user-device-name>" ++
  usn ++
  "</user-device-name>\n  <software-version>7.5.0</software-version>\n  <software-build>09021</software-build>\n  <secure-device>true</secure-device>\n  <language>en</language>\n  <country>US</country>\n  <locale>en_US</locale>\n  <time-zone>US/Pacific</time-zone>\n  <time-zone-offset>-480</time-zone-offset>\n  <power-mode>PowerOn</power-mode>\n  <supports-suspend>false</supports-suspend>\n  <supports-find-remote>false</supports-find-remote>\n  <supports-audio-guide>false</supports-audio-guide>\n  <developer-enabled>false</developer-enabled>\n  <keyed-developer-id>0000000000000000000000000000000000000000</keyed-developer-id>\n  <search-enabled>false</search-enabled>\n  <voice-search-enabled>false</voice-search-enabled>\n  <notifications-enabled>false</notifications-enabled>\n  <notifications-first-use>false</notifications-first-use>\n  <supports-private-listening>false</supports-private-listening>\n  <headphones-connected>false</headphones-connected>\n</device-info>\n"

/-- The static app list body (lines 79-91). -/
def APPS_TEMPLATE : String :=
  "<apps>\n  <app id=\"1\" version=\"1.0.0\">Emulated App 1</app>\n  <app id=\"2\" version=\"1.0.0\">Emulated App 2</app>\n  <app id=\"3\" version=\"1.0.0\">Emulated App 3</app>\n  <app id=\"4\" version=\"1.0.0\">Emulated App 4</app>\n  <app id=\"5\" version=\"1.0.0\">Emulated App 5</app>\n  <app id=\"6\" version=\"1.0.0\">Emulated App 6</app>\n  <app id=\"7\" version=\"1.0.0\">Emulated App 7</app>\n  <app id=\"8\" version=\"1.0.0\">Emulated App 8</app>\n  <app id=\"9\" version=\"1.0.0\">Emulated App 9</app>\n  <app id=\"10\" version=\"1.0.0\">Emulated App 10</app>\n</apps>\n"

/-- The static active-app body (lines 93-96). -/
def ACTIVE_APP_TEMPLATE : String := "<active-app>\n  <app>Roku</app>\n</active-app>\n"

/-- The base64 text of the placeholder icon Buffer (lines 11-14); the
route serves its decoded bytes, which no claim inspects. -/
def APP_PLACEHOLDER_ICON_B64 : String :=
  "iVBORw0KGgoAAAANSUhEUgAAAAEAAAABCAQAAAC1HAwCAAAAC0lEQVR42mP8Xw8AAoMBgDTD2qgAAAAASUVORK5CYII="

/-- One invocation of an operation of the external CommandHandler
collaborator, with its two string arguments. -/
inductive HandlerCall
  | keydown (usn key : String)
  | keyup (usn key : String)
  | keypress (usn key : String)
  | launch (usn appId : String)
deriving DecidableEq

/-- An inbound HTTP request as the guard and router see it: method, path
segments, Host header (none when absent) and remote address. -/
structure Request where
  method : String
  path : List String
  host : Option String
  remote : String
deriving DecidableEq

/-- An HTTP response: status code and body. -/
structure Response where
  status : Nat
  body : String
deriving DecidableEq

/-- Immutable per-device configuration computed by the EmulatedRokuServer
constructor (lines 316-351). -/
structure ServerCfg where
  rokuUsn : String
  hostIp : String
  listenPort : Nat
  advertiseIp : String
  advertisePort : Nat
  bindMulticast : Bool
  allowed_hosts : List String
  roku_uuid : String
  roku_info : String
  device_info : String
deriving DecidableEq

/-- Runtime state of one EmulatedRokuServer: the configuration plus the
two lifecycle fields the constructor initializes to null. -/
structure ServerState where
  cfg : ServerCfg
  discovery_proto : Option DiscoveryProtocol
  api_runner : Option Unit
deriving DecidableEq

/-- The EmulatedRokuServer constructor (lines 316-351): apply the two
null-coalescing defaults, build allowed_hosts from the four address/port
combinations, resolve the multicast-bind default from the platform,
derive the uuid from the usn and render the two documents.  The
CommandHandler collaborator is not stored here: its invocations are
modelled as emitted HandlerCall events. -/
def mkServer (rokuUsn hostIp : String) (listenPort : Nat)
    (advertiseIp : Option String) (advertisePort : Option Nat)
    (bindMulticast : Option Bool) (platformIsWin32 : Bool) : ServerState :=
  let aIp := advertiseIp.getD hostIp
  let aPort := advertisePort.getD listenPort
  let bm := match bindMulticast with
    | none => platformIsWin32
    | some b => b
  let u := uuid5 uuidOID rokuUsn
  { cfg :=
    { rokuUsn := rokuUsn
      hostIp := hostIp
      listenPort := listenPort
      advertiseIp := aIp
      advertisePort := aPort
      bindMulticast := bm
      allowed_hosts :=
        [hostIp,
         hostIp ++ ":" ++ toString listenPort,
         aIp,
         aIp ++ ":" ++ toString aPort]
      roku_uuid := u
      roku_info := formatInfoTemplate u rokuUsn
      device_info := formatDeviceInfoTemplate u rokuUsn }
    discovery_proto := none
    api_runner := none }

/-- The route table installed by _setup_app (lines 427-459) with the
per-route handlers (lines 353-408): command POSTs extract the path
parameter, forward it to the CommandHandler operation with the usn and
answer an empty 200; informational GETs answer the rendered bodies;
anything else is a 404. -/
def routeRequest (st : ServerState) (req : Request) :
    List HandlerCall × Response :=
  match req.method, req.path with
  | "GET", [] => ([], ⟨200, st.cfg.roku_info⟩)
  | "POST", ["keydown", key] => ([HandlerCall.keydown st.cfg.rokuUsn key], ⟨200, ""⟩)
  | "POST", ["keyup", key] => ([HandlerCall.keyup st.cfg.rokuUsn key], ⟨200, ""⟩)
  | "POST", ["keypress", key] => ([HandlerCall.keypress st.cfg.rokuUsn key], ⟨200, ""⟩)
  | "POST", ["launch", id] => ([HandlerCall.launch st.cfg.rokuUsn id], ⟨200, ""⟩)
  | "POST", ["input"] => ([], ⟨200, ""⟩)
  | "POST", ["search"] => ([], ⟨200, ""⟩)
  | "GET", ["query", "apps"] => ([], ⟨200, APPS_TEMPLATE⟩)
  | "GET", ["query", "icon", _] => ([], ⟨200, APP_PLACEHOLDER_ICON_B64⟩)
  | "GET", ["query", "active-app"] => ([], ⟨200, ACTIVE_APP_TEMPLATE⟩)
  | "GET", ["query", "device-info"] => ([], ⟨200, st.cfg.device_info⟩)
  | _, _ => ([], ⟨404, "404: Not Found"⟩)

/-- End-to-end request handling: the middleware runs the guard before any
routed handler; a denial short-circuits to a 403 with no handler call. -/
def handleRequest (st : ServerState) (req : Request) :
    List HandlerCall × Response :=
  match check_remote_and_host_ip st.cfg.allowed_hosts req.host req.remote with
  | GuardResult.allow => routeRequest st req
  | _ => ([], ⟨403, "403: Forbidden"⟩)

/-- EmulatedRokuServer.close (lines 495-507): close the discovery protocol
if present and null the reference, clean up the api runner if present and
null the reference.  Both branches are guarded, so a second call is a
no-op. -/
def serverClose (st : ServerState) : ServerState :=
  { st with
    discovery_proto := none
    api_runner := none }

/-! A second matching predicate written from the words of the spec, for
the refinement comparison of claim C5 only; the authoritative predicate
is isMatch above, taken from the source. -/

/-- Lines of a payload: split on the newline character and drop one
trailing carriage return per line. -/
def splitLines (s : String) : List String :=
  (strSplitOn '\n' s).map (fun l =>
    match l.data.getLast? with
    | some c => if c == '\x0d' then ⟨l.data.dropLast⟩ else l
    | none => l)

/-- Value of a search-target line: the text after the ST: token, with
surrounding white space removed. -/
def stValue (line : String) : Option String :=
  if strStartsWith line "ST:" then some (jsTrim ⟨line.data.drop 3⟩) else none

/-- Written from the words of the spec, not from the source: the first
line must be the multicast search request line, and some line must carry a
search-target EQUAL to the wildcard value or to the device service type. -/
def specMatch (data : String) : Bool :=
  (match splitLines data with
   | [] => false
   | l :: _ => l == "M-SEARCH * HTTP/1.1") &&
  (splitLines data).any (fun l =>
    stValue l == some "ssdp:all" || stValue l == some "roku:ecp")

/-! Theorems settling the claims. -/

/-- C1: the access guard allows a request if and only if the Host header
is present and exactly matches a member of allowed_hosts and the remote
address passes the private-use test; the Host rule is evaluated first, and
any failure yields a 403 without invoking the routed handler. -/
theorem c1_access_guard (st : ServerState) (host : Option String)
    (remote : String) :
    (check_remote_and_host_ip st.cfg.allowed_hosts host remote = GuardResult.allow ↔
      (∃ h, host = some h ∧ h ∈ st.cfg.allowed_hosts) ∧ isPrivateRemote remote = true)
  ∧ (∀ h, host = some h → h ∉ st.cfg.allowed_hosts →
      check_remote_and_host_ip st.cfg.allowed_hosts host remote = GuardResult.denyHost)
  ∧ (∀ req : Request, req.host = host → req.remote = remote →
      check_remote_and_host_ip st.cfg.allowed_hosts host remote ≠ GuardResult.allow →
      handleRequest st req = ([], ⟨403, "403: Forbidden"⟩)) := by
  refine ⟨?_, ?_, ?_⟩
  · cases host with
    | none => simp [check_remote_and_host_ip]
    | some h =>
      by_cases hm : h ∈ st.cfg.allowed_hosts
      · by_cases hp : isPrivateRemote remote = true
        · simp [check_remote_and_host_ip, hm, hp]
        · simp [check_remote_and_host_ip, hm, hp]
      · simp [check_remote_and_host_ip, hm]
  · intro h hh hm
    subst hh
    simp [check_remote_and_host_ip, hm]
  · intro req h1 h2 hne
    unfold handleRequest
    rw [h1, h2]
    cases hc : check_remote_and_host_ip st.cfg.allowed_hosts host remote with
    | allow => exact absurd hc hne
    | denyHost => rfl
    | denyRemote => rfl

/-- Witness for C1 at a concrete configuration and request. -/
theorem c1_access_guard_witness :
    check_remote_and_host_ip
      (mkServer "ABC123" "192.168.1.10" 8060 none none none false).cfg.allowed_hosts
      (some "192.168.1.10") "10.0.0.5" = GuardResult.allow :=
  (c1_access_guard (mkServer "ABC123" "192.168.1.10" 8060 none none none false)
      (some "192.168.1.10") "10.0.0.5").1.mpr
    ⟨⟨"192.168.1.10", rfl, by decide⟩, by decide⟩

/-- C2: a scheduled reply firing on an engine that has left the Listening
state does nothing, and in particular a reply scheduled by a matching
datagram and fired after close sends no datagram at all. -/
theorem c2_stop_suppresses_reply :
    (∀ (s : DiscoveryProtocol) (p : PendingReply),
      s.connected = false → fireReply s p = s)
  ∧ (∀ (s : DiscoveryProtocol) (msg : String) (rinfo : RemoteInfo) (r : ℚ)
      (p : PendingReply),
      fireReply (close (datagramReceived s msg rinfo r)) p
        = close (datagramReceived s msg rinfo r)) := by
  constructor
  · intro s p h
    simp [fireReply, h]
  · intro s msg rinfo r p
    simp [fireReply, close]

/-- Witness for C2: firing a pending reply on a concrete engine with the
connected flag cleared leaves the state unchanged. -/
theorem c2_stop_suppresses_reply_witness :
    fireReply (mkProtocol "192.168.1.10" "ABC123" "192.168.1.10" 8060)
      ⟨"10.0.0.5", 50000, none⟩
      = mkProtocol "192.168.1.10" "ABC123" "192.168.1.10" 8060 :=
  c2_stop_suppresses_reply.1
    (mkProtocol "192.168.1.10" "ABC123" "192.168.1.10" 8060)
    ⟨"10.0.0.5", 50000, none⟩ rfl

/-- C3, evaluated at the failing input: for the matching discovery request
declaring the maximum-wait hint 10, the source reads only the single
character four positions past the MX: token, so the delay is drawn from
the two-second interval r * 2 * 1000 instead of the five-second interval
(10 mod 6 + 1 = 5 seconds) the claim requires; the hint-free draw from
six seconds is as claimed. -/
theorem c3_mx_hint_single_digit (r : ℚ) :
    computeDelay (jsTrim "M-SEARCH * HTTP/1.1\r\nST: roku:ecp\r\nMX: 10") r
      = some (r * 2 * 1000)
  ∧ computeDelay (jsTrim "M-SEARCH * HTTP/1.1\r\nST: ssdp:all") r
      = some (r * 6 * 1000)
  ∧ isMatch (jsTrim "M-SEARCH * HTTP/1.1\r\nST: roku:ecp\r\nMX: 10") = true := by
  refine ⟨?_, ?_, by decide⟩
  · have h1 : strIndexOf (jsTrim "M-SEARCH * HTTP/1.1\r\nST: roku:ecp\r\nMX: 10") "MX:"
        = some 35 := by decide
    have h2 : strCharAt (jsTrim "M-SEARCH * HTTP/1.1\r\nST: roku:ecp\r\nMX: 10") (35 + 4)
        = some '1' := by decide
    have h3 : jsParseIntChar '1' = some 1 := by decide
    simp only [computeDelay, h1, h2, h3, MULTICAST_MAX_DELAY]
    norm_num
  · have h1 : strIndexOf (jsTrim "M-SEARCH * HTTP/1.1\r\nST: ssdp:all") "MX:"
        = none := by decide
    simp only [computeDelay, h1, MULTICAST_MAX_DELAY]
    norm_num

/-- C4, evaluated at the failing input: on a live engine, close calls the
socket close unconditionally; the socket close event then re-enters close
through connectionLost, and that second socket close raises
ERR_SOCKET_DGRAM_NOT_RUNNING - as does any direct second close on an
already-stopped engine.  So close is not the raise-free no-op the claim
requires, although the state effects the claim names (connected cleared,
timer cancelled) do hold before and despite the raise. -/
theorem c4_close_raises :
    (stopSequence
      (connectionMade (mkProtocol "192.168.1.10" "ABC123" "192.168.1.10" 8060))).2
      = some "ERR_SOCKET_DGRAM_NOT_RUNNING"
  ∧ (closeRun
      (close (connectionMade (mkProtocol "192.168.1.10" "ABC123" "192.168.1.10" 8060)))).2
      = some "ERR_SOCKET_DGRAM_NOT_RUNNING"
  ∧ (stopSequence
      (connectionMade (mkProtocol "192.168.1.10" "ABC123" "192.168.1.10" 8060))).1.connected
      = false
  ∧ (stopSequence
      (connectionMade (mkProtocol "192.168.1.10" "ABC123" "192.168.1.10" 8060))).1.notifyInterval
      = none :=
  ⟨rfl, rfl, rfl, rfl⟩

/-- C5 counterexample: the payload with the unrelated search target
roku:ecpX is accepted by the source predicate (substring containment) and
a reply is scheduled for it, although no search-target of the payload is
equal to ssdp:all or roku:ecp. -/
theorem c5_counterexample :
    isMatch (jsTrim "M-SEARCH * HTTP/1.1\r\nST: roku:ecpX") = true
  ∧ specMatch (jsTrim "M-SEARCH * HTTP/1.1\r\nST: roku:ecpX") = false
  ∧ (datagramReceived (mkProtocol "192.168.1.10" "ABC123" "192.168.1.10" 8060)
      "M-SEARCH * HTTP/1.1\r\nST: roku:ecpX" ⟨"10.0.0.5", 50000⟩ 0).pending.length
      = 1 := by decide

/-- C5 amended: a datagram schedules a reply if and only if its trimmed
payload starts with the M-SEARCH request line and contains one of the
substrings ST: ssdp:all or ST: roku:ecp; every other datagram leaves the
engine completely unchanged, and receipt alone never sends anything. -/
theorem c5_match_is_substring_based (s : DiscoveryProtocol) (msg : String)
    (rinfo : RemoteInfo) (r : ℚ) :
    ((datagramReceived s msg rinfo r).pending.length
      = s.pending.length + (if isMatch (jsTrim msg) then 1 else 0))
  ∧ (datagramReceived s msg rinfo r).sent = s.sent
  ∧ (isMatch (jsTrim msg) = false → datagramReceived s msg rinfo r = s) := by
  by_cases h : isMatch (jsTrim msg) <;> simp [datagramReceived, h]

/-- Witness for C5: a non-matching datagram leaves a concrete engine
state unchanged. -/
theorem c5_match_is_substring_based_witness :
    datagramReceived (mkProtocol "192.168.1.10" "ABC123" "192.168.1.10" 8060)
      "junk" ⟨"10.0.0.5", 50000⟩ 0
      = mkProtocol "192.168.1.10" "ABC123" "192.168.1.10" 8060 :=
  (c5_match_is_substring_based
    (mkProtocol "192.168.1.10" "ABC123" "192.168.1.10" 8060)
    "junk" ⟨"10.0.0.5", 50000⟩ 0).2.2 (by decide)

set_option maxRecDepth 40000 in
/-- C6, evaluated at a concrete configuration: the discovery response
carries the 200 OK status line, the max-age 300 cache header, the
roku:ecp search target, the advertise Location and the USN with the usn
string ABC123 verbatim as suffix; the NOTIFY announcement carries the
same Location, but its USN line ends in the literal text
uuid:roku:ecp:\x7busn\x7d because the template hole is never interpolated,
so it does not end in the verbatim usn. -/
theorem c6_payload_headers :
    strContains (ssdpResponseStr "192.168.1.10" 8060 "ABC123") "HTTP/1.1 200 OK" = true
  ∧ strContains (ssdpResponseStr "192.168.1.10" 8060 "ABC123")
      "Cache-Control: max-age = 300" = true
  ∧ strContains (ssdpResponseStr "192.168.1.10" 8060 "ABC123") "ST: roku:ecp" = true
  ∧ strContains (ssdpResponseStr "192.168.1.10" 8060 "ABC123")
      "Location: http://192.168.1.10:8060/" = true
  ∧ strContains (ssdpResponseStr "192.168.1.10" 8060 "ABC123")
      "USN: uuid:roku:ecp:ABC123" = true
  ∧ strContains (notifyBroadcastStr "192.168.1.10" 8060 "ABC123")
      "Location: http://192.168.1.10:8060/" = true
  ∧ strContains (notifyBroadcastStr "192.168.1.10" 8060 "ABC123")
      "USN: uuid:roku:ecp:\x7busn\x7d" = true
  ∧ strContains (notifyBroadcastStr "192.168.1.10" 8060 "ABC123")
      "uuid:roku:ecp:ABC123" = false := by decide

/-- C7: allowed_hosts is exactly the four strings built from the host and
advertise addresses and ports, with the advertise pair defaulting to the
host pair; the configuration record, allowed_hosts included, is preserved
by the only state-transforming server operation. -/
theorem c7_allowed_hosts :
    (∀ (rokuUsn hostIp : String) (listenPort : Nat)
       (advertiseIp : Option String) (advertisePort : Option Nat)
       (bindMulticast : Option Bool) (win : Bool),
      (mkServer rokuUsn hostIp listenPort advertiseIp advertisePort
          bindMulticast win).cfg.allowed_hosts
        = [hostIp,
           hostIp ++ ":" ++ toString listenPort,
           advertiseIp.getD hostIp,
           advertiseIp.getD hostIp ++ ":" ++ toString (advertisePort.getD listenPort)])
  ∧ (∀ st : ServerState, (serverClose st).cfg = st.cfg) :=
  ⟨fun _ _ _ _ _ _ _ => rfl, fun _ => rfl⟩

/-- C8: on an authorized POST, each command route invokes exactly the one
corresponding CommandHandler operation with the usn and the extracted
path parameter, and answers 200 with an empty body. -/
theorem c8_command_dispatch (st : ServerState) (host : Option String)
    (remote : String) (key appId : String)
    (h : check_remote_and_host_ip st.cfg.allowed_hosts host remote
      = GuardResult.allow) :
    handleRequest st ⟨"POST", ["keydown", key], host, remote⟩
      = ([HandlerCall.keydown st.cfg.rokuUsn key], ⟨200, ""⟩)
  ∧ handleRequest st ⟨"POST", ["keyup", key], host, remote⟩
      = ([HandlerCall.keyup st.cfg.rokuUsn key], ⟨200, ""⟩)
  ∧ handleRequest st ⟨"POST", ["keypress", key], host, remote⟩
      = ([HandlerCall.keypress st.cfg.rokuUsn key], ⟨200, ""⟩)
  ∧ handleRequest st ⟨"POST", ["launch", appId], host, remote⟩
      = ([HandlerCall.launch st.cfg.rokuUsn appId], ⟨200, ""⟩) := by
  refine ⟨?_, ?_, ?_, ?_⟩ <;>
    · unfold handleRequest
      rw [show Request.host ⟨"POST", _, host, remote⟩ = host from rfl,
          show Request.remote ⟨"POST", _, host, remote⟩ = remote from rfl, h]
      rfl

/-- Witness for C8: the concrete POST to the keydown route with the Home
key from an allowed host and a private remote. -/
theorem c8_command_dispatch_witness :
    handleRequest (mkServer "ABC123" "192.168.1.10" 8060 none none none false)
      ⟨"POST", ["keydown", "Home"], some "192.168.1.10:8060", "192.168.1.20"⟩
      = ([HandlerCall.keydown "ABC123" "Home"], ⟨200, ""⟩) :=
  (c8_command_dispatch (mkServer "ABC123" "192.168.1.10" 8060 none none none false)
    (some "192.168.1.10:8060") "192.168.1.20" "Home" "1" (by decide)).1

/-- C9: the device uuid is a deterministic function of the usn alone: two
constructions sharing the usn but differing in every other argument give
the same uuid, namely the v5 derivation in the OID namespace. -/
theorem c9_uuid_deterministic (usn hip1 hip2 : String) (lp1 lp2 : Nat)
    (a1 a2 : Option String) (p1 p2 : Option Nat) (b1 b2 : Option Bool)
    (w1 w2 : Bool) :
    (mkServer usn hip1 lp1 a1 p1 b1 w1).cfg.roku_uuid
      = (mkServer usn hip2 lp2 a2 p2 b2 w2).cfg.roku_uuid
  ∧ (mkServer usn hip1 lp1 a1 p1 b1 w1).cfg.roku_uuid = uuid5 uuidOID usn :=
  ⟨rfl, rfl⟩

/-- C10: the hint extraction is not total: on a matching payload whose
character four positions past the start of the MX: token is missing or is
not a decimal digit, the computed delay is NaN (modelled as none), and
the scheduled reply carries that NaN delay instead of a number in the
claimed jitter interval. -/
theorem c10_mx_nan (s : DiscoveryProtocol) (msg : String) (rinfo : RemoteInfo)
    (r : ℚ) (i : Nat)
    (hm : isMatch (jsTrim msg) = true)
    (hidx : strIndexOf (jsTrim msg) "MX:" = some i)
    (hc : ∀ c, strCharAt (jsTrim msg) (i + 4) = some c → c.isDigit = false) :
    computeDelay (jsTrim msg) r = none
  ∧ (datagramReceived s msg rinfo r).pending
      = s.pending ++ [⟨rinfo.address, rinfo.port, none⟩] := by
  have hd : computeDelay (jsTrim msg) r = none := by
    simp only [computeDelay, hidx]
    cases hch : strCharAt (jsTrim msg) (i + 4) with
    | none => rfl
    | some c =>
      have hnd := hc c hch
      simp [jsParseIntChar, hnd]
  refine ⟨hd, ?_⟩
  simp [datagramReceived, hm, hd]

/-- Witness for C10: the matching payload ending in the bare MX: token
schedules a reply whose delay is NaN. -/
theorem c10_mx_nan_witness :
    computeDelay (jsTrim "M-SEARCH * HTTP/1.1\r\nST: roku:ecp\r\nMX:") 0 = none
  ∧ (datagramReceived (mkProtocol "192.168.1.10" "ABC123" "192.168.1.10" 8060)
      "M-SEARCH * HTTP/1.1\r\nST: roku:ecp\r\nMX:" ⟨"10.0.0.5", 50000⟩ 0).pending
      = [⟨"10.0.0.5", 50000, none⟩] := by
  have h := c10_mx_nan
    (mkProtocol "192.168.1.10" "ABC123" "192.168.1.10" 8060)
    "M-SEARCH * HTTP/1.1\r\nST: roku:ecp\r\nMX:" ⟨"10.0.0.5", 50000⟩ 0 35
    (by decide) (by decide)
    (fun c hch => by
      rw [show strCharAt (jsTrim "M-SEARCH * HTTP/1.1\r\nST: roku:ecp\r\nMX:") (35 + 4)
            = none from by decide] at hch
      cases hch)
  exact ⟨h.1, h.2⟩

end EmulatedRoku
